import Mathlib

/-!
Verification of the LineageOS wiki-to-CSV conversion script (lineageos_info.py).

The script loads per-device YAML files, normalizes each into a record
(Device.load_lineageos_wiki_data), filters records (Device.skip_device),
ranks them (Device.__lt__ via sorted), fans kept records out to one CSV
file per configured LineageOS version (MultiCsvFile / CsvGenerator), and
splices a ranked top-10 summary into the README between the headline
"=== top 10 devices" and the next line starting with "==".

The embedding models YAML values as a small inductive type mirroring the
Python values the yaml loader produces (None, bool, int, str, list, dict).
Sequences and mappings are encoded as cons chains (instead of nested List
fields) so that all functions are structural and kernel-computable.
Python repr, truthiness, len, str, int coercion, str.capitalize and
str.rstrip are modelled for exactly the value shapes the script can meet;
Unicode-specific case rules and float YAML scalars are out of scope.
Fallible Python operations (KeyError on a missing dict key, TypeError,
AssertionError) are modelled with Option, none meaning the exception.
-/

/-- A YAML value as loaded by the Python yaml library: None, bool, int,
str, list, dict.  Sequences are cons chains ending in `nilSeq`, mappings
are association chains ending in `nilMap` (this flat encoding keeps all
recursion structural). -/
inductive Yaml where
  | null
  | bool (b : Bool)
  | int (n : Int)
  | str (s : String)
  | nilSeq
  | consSeq (head tail : Yaml)
  | nilMap
  | consMap (key : String) (val : Yaml) (rest : Yaml)
deriving DecidableEq

/-- The single-quote character as a string (used by Python repr of str). -/
def squote : String := String.mk [Char.ofNat 39]

/-- The left-brace character as a string (used by Python repr of dict). -/
def lbrace : String := String.mk [Char.ofNat 123]

/-- The right-brace character as a string (used by Python repr of dict). -/
def rbrace : String := String.mk [Char.ofNat 125]

mutual

/-- Python repr of a loaded YAML value: None, True, False, decimal ints,
single-quoted strings, bracketed comma-joined lists, braced dicts.
(String escaping inside repr is not modelled; the wiki data holds no
quotes or backslashes.) -/
def pyRepr : Yaml → String
  | .null => "None"
  | .bool true => "True"
  | .bool false => "False"
  | .int n => toString n
  | .str s => squote ++ s ++ squote
  | .nilSeq => "[]"
  | .consSeq x rest => "[" ++ pyRepr x ++ pyReprSeqRest rest ++ "]"
  | .nilMap => lbrace ++ rbrace
  | .consMap k v rest =>
      lbrace ++ squote ++ k ++ squote ++ ": " ++ pyRepr v ++ pyReprMapRest rest ++ rbrace

/-- Remaining items of a sequence chain, each preceded by ", ". -/
def pyReprSeqRest : Yaml → String
  | .consSeq x rest => ", " ++ pyRepr x ++ pyReprSeqRest rest
  | _ => ""

/-- Remaining entries of a mapping chain, each preceded by ", ". -/
def pyReprMapRest : Yaml → String
  | .consMap k v rest => ", " ++ squote ++ k ++ squote ++ ": " ++ pyRepr v ++ pyReprMapRest rest
  | _ => ""

end

/-- Build a sequence value from a Lean list. -/
def Yaml.seq : List Yaml → Yaml
  | [] => .nilSeq
  | x :: xs => .consSeq x (Yaml.seq xs)

/-- Build a mapping value from a Lean association list (keys assumed
distinct, as the yaml loader produces). -/
def Yaml.dict : List (String × Yaml) → Yaml
  | [] => .nilMap
  | (k, v) :: rest => .consMap k v (Yaml.dict rest)

/-- Python truthiness of a loaded YAML value. -/
def truthy : Yaml → Bool
  | .null => false
  | .bool b => b
  | .int n => decide (n ≠ 0)
  | .str s => !s.data.isEmpty
  | .nilSeq => false
  | .consSeq _ _ => true
  | .nilMap => false
  | .consMap _ _ _ => true

/-- Python dict lookup `data[key]` / `data.get(key)`: some value when the
key is present in a mapping, none otherwise. -/
def yget : Yaml → String → Option Yaml
  | .consMap k v rest, key => if k = key then some v else yget rest key
  | _, _ => none

/-- Elements of a sequence value as a Lean list; none when the value is
not a sequence (Python iteration over it would fail or mean something
else). -/
def seqItems : Yaml → Option (List Yaml)
  | .nilSeq => some []
  | .consSeq x rest => (seqItems rest).map (fun xs => x :: xs)
  | _ => none

/-- Python len() on a loaded YAML value: defined for str, list and dict,
a TypeError (none) otherwise. -/
def pyLen : Yaml → Option Nat
  | .str s => some s.length
  | .nilSeq => some 0
  | .consSeq x rest => (seqItems (.consSeq x rest)).map List.length
  | .nilMap => some 0
  | .consMap k v rest => (seqItems (.consMap k v rest)).map List.length
  | _ => none

/-- Python str() of a loaded YAML value, as used by str.format fields:
a str is taken verbatim, every other value renders as its repr. -/
def pyStr : Yaml → String
  | .str s => s
  | y => pyRepr y

/-- Python int() coercion used on version entries: ints unchanged, bools
to 0/1, decimal strings parsed, anything else a TypeError/ValueError
(none).  YAML float scalars are not modelled. -/
def pyInt : Yaml → Option Int
  | .int n => some n
  | .bool b => some (if b then 1 else 0)
  | .str s => s.toInt?
  | _ => none

/-- Python str.capitalize (ASCII): first character uppercased, all later
characters lowercased. -/
def pyCapitalize (s : String) : String :=
  match s.data with
  | [] => ""
  | c :: cs => String.mk (c.toUpper :: cs.map Char.toLower)

/-- Python substring test `needle in s` at character granularity. -/
def strContains (s needle : String) : Bool :=
  (List.range (s.data.length + 1)).any (fun i => needle.data.isPrefixOf (s.data.drop i))

/-- Remove duplicates keeping the first occurrence; models building a
Python set from a list where only membership is observed afterwards. -/
def listDedup : List Int → List Int
  | [] => []
  | x :: xs => x :: (listDedup xs).filter (fun y => y ≠ x)

/-- Character class of the regex `[\d\.]`: a digit or a dot (note: the
class does not require a digit and allows any number of dots). -/
def screenClass (c : Char) : Bool := c.isDigit || c == '.'

/-- One attempt of the regex `([\d\.]+) in` anchored at the head of `s`:
the greedy maximal run of class characters, which must be nonempty and
immediately followed by the literal " in". -/
def screenMatchAt (s : List Char) : Option (List Char) :=
  let run := s.takeWhile screenClass
  if run.isEmpty then none
  else if (s.drop run.length).take 3 = [' ', 'i', 'n'] then some run
  else none

/-- The re.findall scan for the first match of `([\d\.]+) in`: try each start
position left to right. -/
def findScreenMatch : List Char → Option (List Char)
  | [] => none
  | c :: rest =>
    match screenMatchAt (c :: rest) with
    | some run => some run
    | none => findScreenMatch rest

/-- Screen normalization from load_lineageos_wiki_data: when the raw
screen value is truthy, run the regex over its repr; on a match replace
the value by the matched group (a str), otherwise (IndexError) keep the
raw value.  A falsy value (None, empty string, 0, empty list) is kept. -/
def normalizeScreen (screen : Yaml) : Yaml :=
  if truthy screen then
    match findScreenMatch (pyRepr screen).data with
    | some run => .str (String.mk run)
    | none => screen
  else screen

/-- The searched substring: quote, removable, quote, colon, space, True
(exactly how repr renders a dict entry with key removable and value True). -/
def removableTrueNeedle : String := squote ++ "removable" ++ squote ++ ": True"

/-- The searched substring: quote, removable, quote, colon, space, False. -/
def removableFalseNeedle : String := squote ++ "removable" ++ squote ++ ": False"

/-- removable_battery normalization from load_lineageos_wiki_data: the
repr of data.get("battery") (None when absent) is searched first for
the removable-True needle and then for the removable-False needle; the
result is
the Python value True, False or the string "???". -/
def removableBattery (battery : Option Yaml) : Yaml :=
  if strContains (pyRepr (battery.getD Yaml.null)) removableTrueNeedle then Yaml.bool true
  else if strContains (pyRepr (battery.getD Yaml.null)) removableFalseNeedle then Yaml.bool false
  else Yaml.str "???"

/-- Fixed URL base of wiki links. -/
def wikiUrlBase : String := "https://wiki.lineageos.org/devices/"

/-- A normalized device record: the derived fields of class Device after
load_lineageos_wiki_data, together with the raw dict entries the later
pipeline stages read (each an Option because the Python dict access can
raise KeyError). -/
structure Device where
  short_name : String
  maintainer_count : Nat
  versions : List Int
  filteredVersions : List Int
  codename : Yaml
  vendor_short : Yaml
  name : Yaml
  ram : Option Yaml
  storage : Option Yaml
  release : Option Yaml
  soc : Option Yaml
  models : Option Yaml
  screen : Yaml
  removable_battery : Yaml
  wiki_link : String
  wiki_commit_date : String
deriving DecidableEq

/-- Device.load_lineageos_wiki_data on one parsed YAML mapping: fails
(exception, modelled as none) when any of the keys vendor_short, name,
maintainers, versions, codename, screen or vendor is missing, when
maintainers has no len, or when a versions entry does not coerce to int
(the vendor key is read by the info line printed at the end of the
method).  versions becomes a set of ints; filteredVersions is its
intersection with the configured target versions. -/
def loadDevice (targets : List Int) (wikiDate : String) (data : Yaml) : Option Device :=
  (yget data "vendor_short").bind fun vendorShort =>
  (yget data "name").bind fun nameVal =>
  (yget data "maintainers").bind fun maintainers =>
  (pyLen maintainers).bind fun mc =>
  (yget data "versions").bind fun versionsRaw =>
  (seqItems versionsRaw).bind fun versionElems =>
  (versionElems.mapM pyInt).bind fun versionInts =>
  (yget data "codename").bind fun codename =>
  (yget data "screen").bind fun screenRaw =>
  (yget data "vendor").bind fun _vendor =>
  some
    { short_name := pyCapitalize (pyStr vendorShort ++ " " ++ pyStr nameVal)
      maintainer_count := mc
      versions := listDedup versionInts
      filteredVersions := (listDedup versionInts).filter (fun v => targets.contains v)
      codename := codename
      vendor_short := vendorShort
      name := nameVal
      ram := yget data "ram"
      storage := yget data "storage"
      release := yget data "release"
      soc := yget data "soc"
      models := yget data "models"
      screen := normalizeScreen screenRaw
      removable_battery := removableBattery (yget data "battery")
      wiki_link := wikiUrlBase ++ pyStr codename
      wiki_commit_date := wikiDate }

/-- Device.skip_device: some true to skip, some false to keep, none when
the dict access for ram or storage raises KeyError.  The four rules run
in source order with the first match winning; a non-str ram or storage
never equals the excluded str values (the Python `in` test on a tuple of
strings). -/
def skipDevice (d : Device) : Option Bool :=
  if d.maintainer_count < 1 then some true
  else if d.filteredVersions.isEmpty then some true
  else
    match d.ram with
    | none => none
    | some ram =>
      if ram = Yaml.str "1 GB" ∨ ram = Yaml.str "2 GB" then some true
      else
        match d.storage with
        | none => none
        | some storage =>
          if storage = Yaml.str "8 GB" ∨ storage = Yaml.str "16 GB" then some true
          else some false

/-- A device passes the filter (skip_device returned False). -/
def keepDevice (d : Device) : Bool := decide (skipDevice d = some false)

/-- Device.__lt__: strictly better rank first, by maintainer_count
descending, tie-broken by short_name ascending (Python string <). -/
def devLt (a b : Device) : Bool :=
  if a.maintainer_count = b.maintainer_count then decide (a.short_name < b.short_name)
  else decide (b.maintainer_count < a.maintainer_count)

/-- The non-strict rank order used by sorting: a may precede b exactly
when not (b < a). -/
def rankLe (a b : Device) : Bool := !devLt b a

/-- Python sorted(devices): the stable ascending sort by __lt__, i.e. a
stable merge sort with `le a b` meaning not (b < a). -/
def pySorted (devices : List Device) : List Device :=
  devices.mergeSort rankLe

/-- The devices whose rows end up in the CSV file of version bucket `v`,
in file order: generate_csv iterates sorted(devices), skips filtered
devices, and appends each survivor to the file of every version in its
filteredVersions (a set, so at most once per bucket). -/
def bucketDevices (devices : List Device) (v : Int) : List Device :=
  (pySorted devices).filter (fun d => keepDevice d && d.filteredVersions.contains v)

/-- One CSV row, fields in the fixed column order of CsvGenerator. -/
structure Row where
  vendor : String
  name : Yaml
  release : Yaml
  screen : Yaml
  ram : Yaml
  storage : Yaml
  removable_battery : Yaml
  maintainers : Nat
  codename : Yaml
  models : String
  soc : Yaml
  versions : List Int
  wikiDate : String
  wikiLink : String
deriving DecidableEq

/-- The models cell: ",".join over data.get("models", "") — absent gives
the empty join, a str joins its characters, a list of str joins the
strings; other shapes are a TypeError (none). -/
def joinModels : Option Yaml → Option String
  | none => some ""
  | some (.str s) => some (String.intercalate "," (s.data.map (fun c => String.mk [c])))
  | some y =>
    (seqItems y).bind fun xs =>
      (xs.mapM (fun x => (match x with | .str s => some s | _ => none : Option String))).map
        (String.intercalate ",")

/-- CsvGenerator.add_device: build the row for a device.  none models the
KeyError/AttributeError when release, soc, ram, storage or models has the
wrong shape or a key is missing (vendor_short must be a str because of
.capitalize()).  The row does not depend on the version bucket. -/
def makeRow (d : Device) : Option Row :=
  (match d.vendor_short with | .str s => some (pyCapitalize s) | _ => none).bind fun vendor =>
  d.release.bind fun release =>
  d.soc.bind fun soc =>
  d.ram.bind fun ram =>
  d.storage.bind fun storage =>
  (joinModels d.models).bind fun models =>
  some
    { vendor := vendor
      name := d.name
      release := release
      screen := d.screen
      ram := ram
      storage := storage
      removable_battery := d.removable_battery
      maintainers := d.maintainer_count
      codename := d.codename
      models := models
      soc := soc
      versions := d.versions
      wikiDate := d.wiki_commit_date
      wikiLink := d.wiki_link }

/-- MultiCsvFile.add_device(version, device): the version argument only
selects the output file; the appended row is makeRow of the device. -/
def rowWritten (_version : Int) (d : Device) : Option Row := makeRow d

/-- One line of the README top-10 list, as formatted by
generate_readme_top10. -/
def fmtDeviceLine (d : Device) : String :=
  "* [[" ++ d.wiki_link ++ "|" ++ d.short_name ++ "]] ("
    ++ toString d.maintainer_count ++ " maintainers)"

/-- The device lines of the README top 10: the first ten of ALL parsed
devices in ranked order (no filtering is applied before this selection). -/
def readmeDeviceLines (devices : List Device) : List String :=
  ((pySorted devices).take 10).map fmtDeviceLine

/-- Python max() over a list of strings (lexicographic); none on an empty
list (ValueError). -/
def maxCommitDate : List String → Option String
  | [] => none
  | x :: xs => some (xs.foldl (fun a b => if a < b then b else a) x)

/-- generate_readme_top10: the device lines, a blank line, the newest
wiki commit date, and the generation date (passed in, since it reads the
clock). -/
def generateReadmeTop10 (today : String) (wikiCommitDates : List String)
    (devices : List Device) : Option (List String) :=
  (maxCommitDate wikiCommitDates).map fun newest =>
    readmeDeviceLines devices
      ++ ["", "Last LineageOS wiki page update: " ++ newest, "Generated: " ++ today]

/-- Whitespace stripped by Python str.rstrip() with no argument. -/
def pyWhitespaceChar (c : Char) : Bool :=
  c == ' ' || c == '\t' || c == '\n' || c == '\r' || c == Char.ofNat 11 || c == Char.ofNat 12

/-- Python str.rstrip(): drop trailing whitespace. -/
def pyRstrip (s : String) : String :=
  String.mk ((s.data.reverse.dropWhile pyWhitespaceChar).reverse)

/-- Python str.startswith at character granularity. -/
def strStartsWith (s pre : String) : Bool := pre.data.isPrefixOf s.data

/-- The README section marker README_TOP10_HEADLINE. -/
def readmeTop10Headline : String := "=== top 10 devices"

/-- The README rewrite loop of generate_csv over the remaining input
lines: every processed line is first rstripped; outside the top-10
section lines are copied and the headline additionally triggers the
insertion of the replacement block (flanked by blank lines) and enters
the section; inside the section lines are dropped until one starting
with "==" is copied and leaves the section.  Returns the output lines
and whether the headline was found. -/
def patchGo (block : List String) : List String → Bool → Bool → List String × Bool
  | [], found, _ => ([], found)
  | line :: rest, found, inTop =>
    let l := pyRstrip line
    if inTop then
      if strStartsWith l "==" then
        let r := patchGo block rest found false
        (l :: r.1, r.2)
      else patchGo block rest found true
    else if l = readmeTop10Headline then
      let r := patchGo block rest true true
      (l :: "" :: (block ++ "" :: r.1), r.2)
    else
      let r := patchGo block rest found false
      (l :: r.1, r.2)

/-- The README update of generate_csv: build the whole new document in
memory, assert that the headline was found (AssertionError otherwise,
modelled as none — nothing is written in that case), else the file is
rewritten with the result joined by newlines. -/
def patchReadme (docLines : List String) (block : List String) : Option (List String) :=
  let r := patchGo block docLines false false
  if r.2 then some r.1 else none

/-- Sample descriptor data: the worked example of the spec (vendor acme,
device Zeta, three maintainers, versions 16 and 17, removable battery,
5.5 inch screen). -/
def zetaData : Yaml := Yaml.dict
  [("vendor", Yaml.str "Acme Corp"),
   ("vendor_short", Yaml.str "acme"),
   ("name", Yaml.str "Zeta"),
   ("maintainers", Yaml.seq [Yaml.str "a", Yaml.str "b", Yaml.str "c"]),
   ("versions", Yaml.seq [Yaml.int 16, Yaml.int 17]),
   ("codename", Yaml.str "zeta"),
   ("screen", Yaml.str "5.5 in display"),
   ("battery", Yaml.dict [("removable", Yaml.bool true)]),
   ("ram", Yaml.str "3 GB"),
   ("storage", Yaml.str "32 GB"),
   ("release", Yaml.str "2018"),
   ("soc", Yaml.str "Snapdragon 820"),
   ("models", Yaml.seq [Yaml.str "Z1"])]

/-- A placeholder record for Option.getD (never actually used: the
sample loads succeed). -/
def fallbackDevice : Device :=
  { short_name := "", maintainer_count := 0, versions := [], filteredVersions := []
    codename := Yaml.null, vendor_short := Yaml.null, name := Yaml.null
    ram := none, storage := none, release := none, soc := none, models := none
    screen := Yaml.null, removable_battery := Yaml.null
    wiki_link := "", wiki_commit_date := "" }

/-- The sample record, loaded with target versions 16 and 17. -/
def devZeta : Device := (loadDevice [16, 17] "2020-01-01" zetaData).getD fallbackDevice

/-- Sample descriptor data for a device with an empty maintainers list
and an all-caps vendor (exercises ranking, filtering and
capitalization). -/
def lgData : Yaml := Yaml.dict
  [("vendor", Yaml.str "LG Electronics"),
   ("vendor_short", Yaml.str "LG"),
   ("name", Yaml.str "G3"),
   ("maintainers", Yaml.seq []),
   ("versions", Yaml.seq [Yaml.int 14]),
   ("codename", Yaml.str "g3"),
   ("screen", Yaml.str "5.5 in"),
   ("battery", Yaml.dict [("removable", Yaml.bool false)]),
   ("ram", Yaml.str "2 GB"),
   ("storage", Yaml.str "16 GB"),
   ("release", Yaml.str "2014"),
   ("soc", Yaml.str "Snapdragon 801"),
   ("models", Yaml.str "d855")]

/-- The second sample record, loaded with the same target versions. -/
def devLg : Device := (loadDevice [16, 17] "2020-01-01" lgData).getD fallbackDevice

/-- zetaData with the maintainers entry removed (exercises the KeyError
path of record loading). -/
def zetaDataNoMaintainers : Yaml := Yaml.dict
  [("vendor", Yaml.str "Acme Corp"),
   ("vendor_short", Yaml.str "acme"),
   ("name", Yaml.str "Zeta"),
   ("versions", Yaml.seq [Yaml.int 16, Yaml.int 17]),
   ("codename", Yaml.str "zeta"),
   ("screen", Yaml.str "5.5 in display"),
   ("battery", Yaml.dict [("removable", Yaml.bool true)]),
   ("ram", Yaml.str "3 GB"),
   ("storage", Yaml.str "32 GB")]


/-- Characterization of Device.__lt__ as a lexicographic strict order on
(maintainer_count descending, short_name ascending). -/
theorem devLt_iff (a b : Device) :
    devLt a b = true ↔
      (b.maintainer_count < a.maintainer_count ∨
        (a.maintainer_count = b.maintainer_count ∧ a.short_name < b.short_name)) := by
  unfold devLt
  by_cases h : a.maintainer_count = b.maintainer_count <;> simp [h]

/-- The rank order is asymmetric. -/
theorem devLt_asymm (a b : Device) : ¬(devLt a b = true ∧ devLt b a = true) := by
  rintro ⟨h1, h2⟩
  rw [devLt_iff] at h1 h2
  rcases h1 with h1 | ⟨h1e, h1s⟩ <;> rcases h2 with h2 | ⟨h2e, h2s⟩
  · omega
  · omega
  · omega
  · exact absurd (lt_trans h1s h2s) (lt_irrefl _)

/-- The rank order is transitive. -/
theorem devLt_trans (a b c : Device) (h1 : devLt a b = true) (h2 : devLt b c = true) :
    devLt a c = true := by
  rw [devLt_iff] at h1 h2 ⊢
  rcases h1 with h1 | ⟨h1e, h1s⟩ <;> rcases h2 with h2 | ⟨h2e, h2s⟩
  · left; omega
  · left; omega
  · left; omega
  · exact Or.inr ⟨by omega, lt_trans h1s h2s⟩

/-- The rank order is total on records that differ in maintainer count or
short name. -/
theorem devLt_total (a b : Device)
    (h : a.maintainer_count ≠ b.maintainer_count ∨ a.short_name ≠ b.short_name) :
    devLt a b = true ∨ devLt b a = true := by
  by_cases hm : a.maintainer_count = b.maintainer_count
  · rcases h with h | h
    · exact absurd hm h
    · rcases lt_or_gt_of_ne h with hs | hs
      · exact Or.inl ((devLt_iff a b).mpr (Or.inr ⟨hm, hs⟩))
      · exact Or.inr ((devLt_iff b a).mpr (Or.inr ⟨hm.symm, hs⟩))
  · rcases Nat.lt_or_ge a.maintainer_count b.maintainer_count with hlt | hge
    · exact Or.inr ((devLt_iff b a).mpr (Or.inl hlt))
    · exact Or.inl ((devLt_iff a b).mpr (Or.inl (by omega)))

/-- The sort comparator is transitive. -/
theorem rankLe_trans (a b c : Device) (h1 : rankLe a b = true) (h2 : rankLe b c = true) :
    rankLe a c = true := by
  unfold rankLe at h1 h2 ⊢
  rw [Bool.not_eq_true'] at h1 h2 ⊢
  by_contra hca
  rw [Bool.not_eq_false] at hca
  have hba : ¬ devLt b a = true := by simp [h1]
  have hcb : ¬ devLt c b = true := by simp [h2]
  rw [devLt_iff] at hca hba hcb
  push_neg at hba hcb
  rcases hca with hca | ⟨hcae, hcas⟩
  · omega
  · have h3 : b.maintainer_count = a.maintainer_count := by omega
    have h4 : c.maintainer_count = b.maintainer_count := by omega
    have h5 : a.short_name ≤ b.short_name := not_lt.mp (hba.2 h3)
    have h6 : b.short_name ≤ c.short_name := not_lt.mp (hcb.2 h4)
    exact absurd (lt_of_lt_of_le (lt_of_lt_of_le hcas h5) h6) (lt_irrefl _)

/-- The sort comparator is total. -/
theorem rankLe_total (a b : Device) : (rankLe a b || rankLe b a) = true := by
  unfold rankLe
  by_cases h : devLt b a = true
  · have h2 : devLt a b = false :=
      Bool.eq_false_iff.mpr (fun hT => devLt_asymm a b ⟨hT, h⟩)
    simp [h2]
  · simp [Bool.eq_false_iff.mpr h]

/-- sorted(devices) is a permutation of the input. -/
theorem pySorted_perm (l : List Device) : (pySorted l).Perm l :=
  List.mergeSort_perm l rankLe

/-- Membership is preserved by sorting. -/
theorem mem_pySorted {l : List Device} {d : Device} : d ∈ pySorted l ↔ d ∈ l :=
  (pySorted_perm l).mem_iff

/-- The sorted list is ranked: no later element is strictly better than
an earlier one. -/
theorem pySorted_pairwise (l : List Device) :
    (pySorted l).Pairwise (fun a b => devLt b a = false) := by
  have h := List.sorted_mergeSort rankLe_trans rankLe_total l
  exact h.imp (fun hab => by simpa [rankLe, Bool.not_eq_true'] using hab)

/-- Sorting a single record is the identity. -/
theorem pySorted_singleton (d : Device) : pySorted [d] = [d] :=
  List.perm_singleton.mp (pySorted_perm [d])

/-- Occurrence count through filter. -/
theorem count_filter_eq {α : Type} [DecidableEq α] (p : α → Bool) (l : List α) (a : α) :
    (l.filter p).count a = if p a then l.count a else 0 := by
  by_cases h : p a = true
  · simp [h, List.count_filter h]
  · simp only [h, if_false]
    refine List.count_eq_zero.mpr ?_
    intro hmem
    exact h (List.of_mem_filter hmem)

/-- Inversion of a successful record load: the required keys were all
present, the derived conversions succeeded, and the record is exactly the
normalized result built from them. -/
theorem loadDevice_inv {targets : List Int} {date : String} {data : Yaml} {dev : Device}
    (h : loadDevice targets date data = some dev) :
    ∃ vs nm m mc vraw velems vints cod scr vd,
      yget data "vendor_short" = some vs ∧ yget data "name" = some nm ∧
      yget data "maintainers" = some m ∧ pyLen m = some mc ∧
      yget data "versions" = some vraw ∧ seqItems vraw = some velems ∧
      velems.mapM pyInt = some vints ∧ yget data "codename" = some cod ∧
      yget data "screen" = some scr ∧ yget data "vendor" = some vd ∧
      dev =
        { short_name := pyCapitalize (pyStr vs ++ " " ++ pyStr nm)
          maintainer_count := mc
          versions := listDedup vints
          filteredVersions := (listDedup vints).filter (fun v => targets.contains v)
          codename := cod
          vendor_short := vs
          name := nm
          ram := yget data "ram"
          storage := yget data "storage"
          release := yget data "release"
          soc := yget data "soc"
          models := yget data "models"
          screen := normalizeScreen scr
          removable_battery := removableBattery (yget data "battery")
          wiki_link := wikiUrlBase ++ pyStr cod
          wiki_commit_date := date } := by
  unfold loadDevice at h
  simp only [Option.bind_eq_some] at h
  obtain ⟨vs, hvs, nm, hnm, m, hm, mc, hmc, vraw, hvraw, velems, hvelems, vints, hvints,
    cod, hcod, scr, hscr, vd, hvd, hdev⟩ := h
  rw [Option.some_inj] at hdev
  exact ⟨vs, nm, m, mc, vraw, velems, vints, cod, scr, vd,
    hvs, hnm, hm, hmc, hvraw, hvelems, hvints, hcod, hscr, hvd, hdev.symm⟩

/-- A record whose source mapping lacks the maintainers key fails to
load. -/
theorem loadDevice_no_maintainers {targets : List Int} {date : String} {data : Yaml}
    (h : yget data "maintainers" = none) : loadDevice targets date data = none := by
  rcases hres : loadDevice targets date data with _ | dev
  · rfl
  · obtain ⟨_, _, m, _, _, _, _, _, _, _, _, _, hm, -⟩ := loadDevice_inv hres
    rw [h] at hm
    exact absurd hm (by simp)

/-- A record whose source mapping lacks the screen key fails to load. -/
theorem loadDevice_no_screen {targets : List Int} {date : String} {data : Yaml}
    (h : yget data "screen" = none) : loadDevice targets date data = none := by
  rcases hres : loadDevice targets date data with _ | dev
  · rfl
  · obtain ⟨_, _, _, _, _, _, _, _, scr, _, _, _, _, _, _, _, _, _, hscr, -⟩ :=
      loadDevice_inv hres
    rw [h] at hscr
    exact absurd hscr (by simp)

/-- seqItems of a built sequence recovers the element list. -/
theorem seqItems_seq (xs : List Yaml) : seqItems (Yaml.seq xs) = some xs := by
  induction xs with
  | nil => rfl
  | cons x xs ih => simp [Yaml.seq, seqItems, ih]

/-- pyLen of a sequence is its number of elements. -/
theorem pyLen_seq (xs : List Yaml) : pyLen (Yaml.seq xs) = some xs.length := by
  have h := seqItems_seq xs
  cases xs with
  | nil => rfl
  | cons x xs =>
    simp only [Yaml.seq] at h
    simp [Yaml.seq, pyLen, h]

/-- Rule 1 of skip_device fires on zero maintainers regardless of every
other field. -/
theorem skipDevice_no_maintainers (d : Device) (h : d.maintainer_count = 0) :
    skipDevice d = some true := by
  unfold skipDevice
  simp [h]

/-- Rule 2 of skip_device fires on an empty version intersection
regardless of ram and storage. -/
theorem skipDevice_no_version (d : Device) (h : d.filteredVersions = []) :
    1 ≤ d.maintainer_count → skipDevice d = some true := by
  intro hmc
  unfold skipDevice
  have h1 : ¬ d.maintainer_count < 1 := by omega
  simp [h1, h]

/-- Rule 3 of skip_device fires on excluded RAM regardless of storage. -/
theorem skipDevice_bad_ram (d : Device) (r : Yaml) (hmc : 1 ≤ d.maintainer_count)
    (hv : d.filteredVersions ≠ []) (hr : d.ram = some r)
    (hbad : r = Yaml.str "1 GB" ∨ r = Yaml.str "2 GB") : skipDevice d = some true := by
  unfold skipDevice
  have h1 : ¬ d.maintainer_count < 1 := by omega
  have h2 : d.filteredVersions.isEmpty = false := by
    simpa [List.isEmpty_iff] using hv
  simp [h1, h2, hr, hbad]

/-- skip_device returns keep exactly when all four rules fail. -/
theorem skipDevice_false_iff (d : Device) (r s : Yaml) (hr : d.ram = some r)
    (hs : d.storage = some s) :
    skipDevice d = some false ↔
      (1 ≤ d.maintainer_count ∧ d.filteredVersions ≠ [] ∧
        r ≠ Yaml.str "1 GB" ∧ r ≠ Yaml.str "2 GB" ∧
        s ≠ Yaml.str "8 GB" ∧ s ≠ Yaml.str "16 GB") := by
  unfold skipDevice
  rw [hr, hs]
  by_cases h1 : d.maintainer_count < 1
  · simp [h1]
  by_cases h2 : d.filteredVersions.isEmpty
  · simp [h1, h2, List.isEmpty_iff.mp h2]
  by_cases h3 : r = Yaml.str "1 GB" ∨ r = Yaml.str "2 GB"
  · rcases h3 with h3 | h3 <;> simp [h1, h2, h3]
  by_cases h4 : s = Yaml.str "8 GB" ∨ s = Yaml.str "16 GB"
  · rcases h4 with h4 | h4 <;> simp [h1, h2, h3, h4]
  · push_neg at h3 h4
    have h2e : d.filteredVersions ≠ [] := by simpa [List.isEmpty_iff] using h2
    simp [h1, h2, h3, h4, h3.1, h3.2, h4.1, h4.2, h2e]
    omega

/-- A kept record passed rules 1 and 2. -/
theorem skipDevice_false_parts {d : Device} (h : skipDevice d = some false) :
    1 ≤ d.maintainer_count ∧ d.filteredVersions ≠ [] := by
  unfold skipDevice at h
  by_cases h1 : d.maintainer_count < 1
  · simp [h1] at h
  by_cases h2 : d.filteredVersions.isEmpty
  · simp [h1, h2] at h
  · exact ⟨by omega, by simpa [List.isEmpty_iff] using h2⟩

/-- Membership in a version bucket file. -/
theorem mem_bucketDevices {devices : List Device} {d : Device} {v : Int} :
    d ∈ bucketDevices devices v ↔
      (d ∈ devices ∧ skipDevice d = some false ∧ v ∈ d.filteredVersions) := by
  unfold bucketDevices
  rw [List.mem_filter, mem_pySorted]
  simp [keepDevice]

/-- takeWhile over a prefix whose elements all satisfy the predicate. -/
theorem takeWhile_all_append (p : Char → Bool) (xs ys : List Char)
    (h : ∀ x ∈ xs, p x = true) :
    (xs ++ ys).takeWhile p = xs ++ ys.takeWhile p := by
  induction xs with
  | nil => simp
  | cons x xs ih =>
    have hx : p x = true := h x (by simp)
    simp only [List.cons_append, List.takeWhile_cons, hx, if_true]
    rw [ih (fun y hy => h y (by simp [hy]))]

/-- The regex scan on a string of shape quote ++ token ++ " in" ++ rest,
where the token is a nonempty run of class characters: the match is
exactly the token (the leading repr quote is skipped, the greedy run
stops at the space and the literal " in" follows). -/
theorem findScreenMatch_canonical (token rest : List Char) (h1 : token ≠ [])
    (h2 : ∀ c ∈ token, screenClass c = true) :
    findScreenMatch (Char.ofNat 39 :: (token ++ (' ' :: 'i' :: 'n' :: rest)))
      = some token := by
  cases token with
  | nil => exact absurd rfl h1
  | cons t ts =>
    have hq : screenClass (Char.ofNat 39) = false := by decide
    have hsp : screenClass ' ' = false := by decide
    have hrun : ((t :: ts) ++ (' ' :: 'i' :: 'n' :: rest)).takeWhile screenClass = t :: ts := by
      rw [takeWhile_all_append screenClass (t :: ts) _ h2]
      simp [List.takeWhile_cons, hsp]
    have hfail : screenMatchAt (Char.ofNat 39 :: ((t :: ts) ++ (' ' :: 'i' :: 'n' :: rest)))
        = none := by
      unfold screenMatchAt
      simp [List.takeWhile_cons, hq]
    have hok : screenMatchAt (t :: (ts ++ (' ' :: 'i' :: 'n' :: rest))) = some (t :: ts) := by
      unfold screenMatchAt
      rw [show (t :: (ts ++ (' ' :: 'i' :: 'n' :: rest)))
            = ((t :: ts) ++ (' ' :: 'i' :: 'n' :: rest)) from rfl]
      rw [hrun]
      have hdrop : ((t :: ts) ++ (' ' :: 'i' :: 'n' :: rest)).drop (t :: ts).length
          = ' ' :: 'i' :: 'n' :: rest := List.drop_left (t :: ts) _
      simp [hdrop]
    have step1 : findScreenMatch (Char.ofNat 39 :: ((t :: ts) ++ (' ' :: 'i' :: 'n' :: rest)))
        = findScreenMatch ((t :: ts) ++ (' ' :: 'i' :: 'n' :: rest)) := by
      unfold findScreenMatch
      rw [hfail]
      rfl
    have step2 : findScreenMatch ((t :: ts) ++ (' ' :: 'i' :: 'n' :: rest)) = some (t :: ts) := by
      rw [show ((t :: ts) ++ (' ' :: 'i' :: 'n' :: rest))
            = t :: (ts ++ (' ' :: 'i' :: 'n' :: rest)) from rfl]
      unfold findScreenMatch
      rw [hok]
    rw [step1, step2]

/-- Character data of string append. -/
theorem data_append (a b : String) : (a ++ b).data = a.data ++ b.data :=
  String.data_append a b

/-- Processing lines before the headline: each is copied rstripped. -/
theorem patchGo_pre (block pre rest : List String)
    (h : ∀ l ∈ pre, pyRstrip l ≠ readmeTop10Headline) :
    patchGo block (pre ++ rest) false false
      = ((pre.map pyRstrip) ++ (patchGo block rest false false).1,
          (patchGo block rest false false).2) := by
  induction pre with
  | nil => simp
  | cons x xs ih =>
    have hx : ¬ pyRstrip x = readmeTop10Headline := h x (by simp)
    simp only [List.cons_append, patchGo, if_neg hx, Bool.false_eq_true, if_false,
      List.append_eq]
    rw [ih (fun y hy => h y (by simp [hy]))]
    simp

/-- Processing lines inside the top-10 section: lines not starting with
"==" are dropped. -/
theorem patchGo_mid (block mid rest : List String)
    (h : ∀ l ∈ mid, strStartsWith (pyRstrip l) "==" = false) :
    patchGo block (mid ++ rest) true true = patchGo block rest true true := by
  induction mid with
  | nil => simp
  | cons x xs ih =>
    have hx : strStartsWith (pyRstrip x) "==" = false := h x (by simp)
    simp only [List.cons_append, patchGo, hx, Bool.false_eq_true, if_false, if_true,
      List.append_eq]
    exact ih (fun y hy => h y (by simp [hy]))

/-- Processing lines after the section was replaced, none of which is
the headline again: each is copied rstripped, found stays true. -/
theorem patchGo_post (block post : List String)
    (h : ∀ l ∈ post, pyRstrip l ≠ readmeTop10Headline) :
    patchGo block post true false = (post.map pyRstrip, true) := by
  induction post with
  | nil => simp [patchGo]
  | cons x xs ih =>
    have hx : ¬ pyRstrip x = readmeTop10Headline := h x (by simp)
    simp only [patchGo, if_neg hx, Bool.false_eq_true, if_false]
    rw [ih (fun y hy => h y (by simp [hy]))]
    simp

/-- The found flag after the whole scan: true exactly when the flag was
already set or some line rstrips to the headline (the scan state can
only be inside the section when the headline was already found). -/
theorem patchGo_found (block : List String) (lines : List String) :
    ∀ found inTop : Bool, (inTop = true → found = true) →
      (patchGo block lines found inTop).2
        = (found || lines.any (fun l => decide (pyRstrip l = readmeTop10Headline))) := by
  induction lines with
  | nil => intro found inTop _; simp [patchGo]
  | cons x xs ih =>
    intro found inTop hinv
    by_cases hT : inTop = true
    · have hf : found = true := hinv hT
      subst hf
      subst hT
      by_cases hs : strStartsWith (pyRstrip x) "==" = true
      · simp only [patchGo, if_true, hs]
        rw [ih true false (by simp)]
        simp
      · simp only [patchGo, if_true, Bool.eq_false_iff.mpr hs, Bool.false_eq_true, if_false]
        rw [ih true true (by simp)]
        simp
    · have hTf : inTop = false := Bool.eq_false_iff.mpr hT
      subst hTf
      by_cases hm : pyRstrip x = readmeTop10Headline
      · simp only [patchGo, Bool.false_eq_true, if_false, if_pos hm]
        rw [ih true true (by simp)]
        simp [hm]
      · simp only [patchGo, Bool.false_eq_true, if_false, if_neg hm]
        rw [ih found false (by simp)]
        simp [hm]

/-- C1 (amended): after normalization removable_battery is always one of
exactly three values — True (yes), False (no), the string "???"
(unknown) — and never null, for every shape of the source battery field.
The value is decided by substring search over the Python repr of the
battery value: the removable-True needle wins first, then the
removable-False needle, else unknown.  Consequently a list of mappings is NOT joined per element
with "/": a list containing both a removable and a non-removable variant
collapses to yes; the sentinel string "None" and an absent field both
yield the same "???" value (no distinct case). -/
theorem c1_battery_amended :
    (∀ battery : Option Yaml,
        removableBattery battery = Yaml.bool true ∨
          removableBattery battery = Yaml.bool false ∨
          removableBattery battery = Yaml.str "???")
  ∧ (∀ battery : Option Yaml, removableBattery battery ≠ Yaml.null)
  ∧ (∀ battery : Option Yaml,
        removableBattery battery = Yaml.bool true ↔
          strContains (pyRepr (battery.getD Yaml.null)) removableTrueNeedle = true)
  ∧ (removableBattery none = Yaml.str "???"
      ∧ removableBattery (some Yaml.null) = Yaml.str "???"
      ∧ removableBattery (some (Yaml.str "None")) = Yaml.str "???"
      ∧ removableBattery (some (Yaml.dict [("removable", Yaml.bool true)])) = Yaml.bool true
      ∧ removableBattery (some (Yaml.dict [("removable", Yaml.bool false)])) = Yaml.bool false
      ∧ removableBattery (some (Yaml.dict [("capacity", Yaml.int 3000)])) = Yaml.str "???"
      ∧ removableBattery (some (Yaml.seq [Yaml.dict [("removable", Yaml.bool true)],
            Yaml.dict [("removable", Yaml.bool false)]])) = Yaml.bool true)
  ∧ (∀ (targets : List Int) (date : String) (data : Yaml) (dev : Device),
        loadDevice targets date data = some dev →
        dev.removable_battery = removableBattery (yget data "battery")) := by
  refine ⟨?_, ?_, ?_, ?_, ?_⟩
  · intro battery
    unfold removableBattery
    split_ifs <;> simp
  · intro battery
    unfold removableBattery
    split_ifs <;> simp
  · intro battery
    unfold removableBattery
    split_ifs with h1 h2 <;> simp_all
  · exact ⟨by decide, by decide, by decide, by decide, by decide, by decide, by decide⟩
  · intro targets date data dev h
    obtain ⟨vs, nm, m, mc, vraw, velems, vints, cod, scr, vd,
      hvs, hnm, hm, hmc, hvraw, hvelems, hvints, hcod, hscr, hvd, hdev⟩ := loadDevice_inv h
    rw [hdev]

/-- C1 counterexample: a battery given as a list of two mappings, one
removable and one not.  The claim predicts the per-element tri-states
joined with "/" (a yes/no composite); the code instead returns the plain
single value True (yes), because the first substring found in the repr of
the whole list wins. -/
theorem c1_battery_counterexample :
    removableBattery (some (Yaml.seq [Yaml.dict [("removable", Yaml.bool true)],
        Yaml.dict [("removable", Yaml.bool false)]])) = Yaml.bool true := by decide

/-- C1 witness: the loaded sample record carries exactly the normalized
battery value of its source battery field. -/
theorem c1_battery_witness :
    devZeta.removable_battery = removableBattery (yget zetaData "battery") :=
  c1_battery_amended.2.2.2.2 [16, 17] "2020-01-01" zetaData devZeta (by decide)

/-- C2: the ranking comparison of Device.__lt__ ranks A strictly before B
exactly when A has more maintainers, or equal maintainers and a smaller
short_name; it is asymmetric, transitive, and total on records that
differ in maintainer count or short name; the same order (through the
single sorted call on pySorted) yields the row order of every CSV bucket
(rows pairwise ranked, never input order) and the top-10 selection. -/
theorem c2_ranking_order :
    (∀ a b : Device, devLt a b = true ↔
      (b.maintainer_count < a.maintainer_count ∨
        (a.maintainer_count = b.maintainer_count ∧ a.short_name < b.short_name)))
  ∧ (∀ a b : Device, ¬(devLt a b = true ∧ devLt b a = true))
  ∧ (∀ a b c : Device, devLt a b = true → devLt b c = true → devLt a c = true)
  ∧ (∀ a b : Device,
      a.maintainer_count ≠ b.maintainer_count ∨ a.short_name ≠ b.short_name →
      devLt a b = true ∨ devLt b a = true)
  ∧ (∀ (devices : List Device) (v : Int),
      (bucketDevices devices v).Pairwise (fun x y => devLt y x = false))
  ∧ (∀ devices : List Device,
      readmeDeviceLines devices = ((pySorted devices).take 10).map fmtDeviceLine)
  ∧ (∀ (devices : List Device) (v : Int),
      bucketDevices devices v
        = (pySorted devices).filter (fun d => keepDevice d && d.filteredVersions.contains v)) := by
  refine ⟨devLt_iff, devLt_asymm, devLt_trans, devLt_total, ?_, fun _ => rfl, fun _ _ => rfl⟩
  intro devices v
  exact (pySorted_pairwise devices).sublist (List.filter_sublist _)

/-- C2 witness: the totality clause applied to the two concrete sample
records (3 maintainers vs 0 maintainers). -/
theorem c2_ranking_order_witness : devLt devZeta devLg = true ∨ devLt devLg devZeta = true :=
  c2_ranking_order.2.2.2.1 devZeta devLg (Or.inl (by decide))

/-- C3: under the hard-coded configuration (min one maintainer, excluded
RAM 1 GB / 2 GB, excluded storage 8 GB / 16 GB) a record is kept exactly
when all four skip rules fail; the rules fire in source order with the
first match winning (rule 1 needs no other field, rule 2 needs no
ram/storage, rule 3 needs no storage); a record in the input list is
written to some CSV bucket iff skip_device keeps it; a record with an
empty version intersection is in no bucket; and for a loaded record the
filteredVersions is exactly its versions intersected with the target
set. -/
theorem c3_filter_rules :
    (∀ d : Device, d.maintainer_count = 0 → skipDevice d = some true)
  ∧ (∀ d : Device, 1 ≤ d.maintainer_count → d.filteredVersions = [] →
      skipDevice d = some true)
  ∧ (∀ (d : Device) (r : Yaml), 1 ≤ d.maintainer_count → d.filteredVersions ≠ [] →
      d.ram = some r → (r = Yaml.str "1 GB" ∨ r = Yaml.str "2 GB") →
      skipDevice d = some true)
  ∧ (∀ (d : Device) (r s : Yaml), d.ram = some r → d.storage = some s →
      (skipDevice d = some false ↔
        (1 ≤ d.maintainer_count ∧ d.filteredVersions ≠ [] ∧
          r ≠ Yaml.str "1 GB" ∧ r ≠ Yaml.str "2 GB" ∧
          s ≠ Yaml.str "8 GB" ∧ s ≠ Yaml.str "16 GB")))
  ∧ (∀ (devices : List Device) (d : Device), d ∈ devices →
      ((∃ v, d ∈ bucketDevices devices v) ↔ skipDevice d = some false))
  ∧ (∀ (d : Device) (devices : List Device) (v : Int), d.filteredVersions = [] →
      d ∉ bucketDevices devices v)
  ∧ (∀ (targets : List Int) (date : String) (data : Yaml) (dev : Device),
      loadDevice targets date data = some dev →
      dev.filteredVersions = dev.versions.filter (fun v => targets.contains v)) := by
  refine ⟨skipDevice_no_maintainers, fun d hmc hv => skipDevice_no_version d hv hmc, ?_,
    skipDevice_false_iff, ?_, ?_, ?_⟩
  · intro d r hmc hv hr hbad
    exact skipDevice_bad_ram d r hmc hv hr hbad
  · intro devices d hd
    constructor
    · rintro ⟨v, hv⟩
      exact (mem_bucketDevices.mp hv).2.1
    · intro hkeep
      obtain ⟨v0, hv0⟩ := List.exists_mem_of_ne_nil _ (skipDevice_false_parts hkeep).2
      exact ⟨v0, mem_bucketDevices.mpr ⟨hd, hkeep, hv0⟩⟩
  · intro d devices v hempty hmem
    have := (mem_bucketDevices.mp hmem).2.2
    rw [hempty] at this
    exact absurd this (List.not_mem_nil _)
  · intro targets date data dev h
    obtain ⟨vs, nm, m, mc, vraw, velems, vints, cod, scr, vd,
      hvs, hnm, hm, hmc, hvraw, hvelems, hvints, hcod, hscr, hvd, hdev⟩ := loadDevice_inv h
    rw [hdev]

/-- C3 witness: the keep-iff clause applied to the concrete sample
record (3 maintainers, versions 16/17, 3 GB RAM, 32 GB storage). -/
theorem c3_filter_rules_witness :
    skipDevice devZeta = some false ↔
      (1 ≤ devZeta.maintainer_count ∧ devZeta.filteredVersions ≠ [] ∧
        Yaml.str "3 GB" ≠ Yaml.str "1 GB" ∧ Yaml.str "3 GB" ≠ Yaml.str "2 GB" ∧
        Yaml.str "32 GB" ≠ Yaml.str "8 GB" ∧ Yaml.str "32 GB" ≠ Yaml.str "16 GB") :=
  c3_filter_rules.2.2.2.1 devZeta (Yaml.str "3 GB") (Yaml.str "32 GB") (by decide) (by decide)

/-- C4: a kept record whose version set meets the target set in k
versions is written exactly once into each of those k buckets and into
no other bucket (the count in bucket v is 1 iff v is among its matched
versions, else 0), and the row built for it is identical whatever the
bucket, since add_device uses the version argument only to select the
output file. -/
theorem c4_bucket_fanout :
    (∀ (v w : Int) (d : Device), rowWritten v d = rowWritten w d)
  ∧ (∀ (devices : List Device) (d : Device) (v : Int), d ∈ bucketDevices devices v →
      v ∈ d.filteredVersions)
  ∧ (∀ (devices : List Device) (d : Device) (v : Int),
      keepDevice d = true → devices.count d = 1 →
      (bucketDevices devices v).count d = if v ∈ d.filteredVersions then 1 else 0) := by
  refine ⟨fun _ _ _ => rfl, ?_, ?_⟩
  · intro devices d v h
    exact (mem_bucketDevices.mp h).2.2
  · intro devices d v hkeep hcount
    unfold bucketDevices
    rw [count_filter_eq, (pySorted_perm devices).count_eq, hcount]
    by_cases hv : v ∈ d.filteredVersions
    · simp [hkeep, hv]
    · simp [hkeep, hv]

/-- C4 witness: the count clause applied to the sample record in the
singleton input list, for bucket 16. -/
theorem c4_bucket_fanout_witness :
    (bucketDevices [devZeta] 16).count devZeta
      = if (16 : Int) ∈ devZeta.filteredVersions then 1 else 0 :=
  c4_bucket_fanout.2.2 [devZeta] devZeta 16 (by decide) (by decide)

/-- C5 (amended): screen extraction takes the first maximal nonempty run
of characters from the class digits-or-dot immediately preceding the
literal " in" in the Python repr of the value (the claimed restrictions
— a digit must occur, at most one decimal point — do not exist: the run
may be dots only or carry several dots); when no such run exists, or the
value is falsy (null or the empty string), the original value is kept
verbatim; a record whose mapping has no screen key at all does not load
(KeyError) rather than keeping an absent value.  The screen field of a
loaded record is exactly this normalization of the raw value. -/
theorem c5_screen_amended :
    (normalizeScreen Yaml.null = Yaml.null
      ∧ normalizeScreen (Yaml.str "") = Yaml.str ""
      ∧ normalizeScreen (Yaml.str "no size") = Yaml.str "no size"
      ∧ normalizeScreen (Yaml.str "5.5 in display") = Yaml.str "5.5")
  ∧ (∀ (token rest : List Char), token ≠ [] → (∀ c ∈ token, screenClass c = true) →
      normalizeScreen (Yaml.str (String.mk (token ++ (' ' :: 'i' :: 'n' :: rest))))
        = Yaml.str (String.mk token))
  ∧ (∀ s : String, truthy (Yaml.str s) = true →
      findScreenMatch (pyRepr (Yaml.str s)).data = none →
      normalizeScreen (Yaml.str s) = Yaml.str s)
  ∧ (∀ (targets : List Int) (date : String) (data : Yaml) (dev : Device) (scr : Yaml),
      loadDevice targets date data = some dev → yget data "screen" = some scr →
      dev.screen = normalizeScreen scr)
  ∧ (∀ (targets : List Int) (date : String) (data : Yaml),
      yget data "screen" = none → loadDevice targets date data = none) := by
  refine ⟨⟨by decide, by decide, by decide, by decide⟩, ?_, ?_, ?_, ?_⟩
  · intro token rest htok hcls
    have hdata : (pyRepr (Yaml.str (String.mk (token ++ (' ' :: 'i' :: 'n' :: rest))))).data
        = Char.ofNat 39 :: (token ++ (' ' :: 'i' :: 'n' :: (rest ++ [Char.ofNat 39]))) := by
      show ((squote ++ String.mk (token ++ (' ' :: 'i' :: 'n' :: rest))) ++ squote).data = _
      rw [data_append, data_append]
      show ([Char.ofNat 39] ++ (token ++ (' ' :: 'i' :: 'n' :: rest))) ++ [Char.ofNat 39] = _
      simp
    have htruthy : truthy (Yaml.str (String.mk (token ++ (' ' :: 'i' :: 'n' :: rest)))) = true := by
      cases token with
      | nil => exact absurd rfl htok
      | cons t ts => rfl
    unfold normalizeScreen
    rw [htruthy, if_pos rfl, hdata,
      findScreenMatch_canonical token (rest ++ [Char.ofNat 39]) htok hcls]
  · intro s hs hno
    unfold normalizeScreen
    rw [hs, if_pos rfl, hno]
  · intro targets date data dev scr h hscr
    obtain ⟨vs, nm, m, mc, vraw, velems, vints, cod, scr2, vd,
      hvs, hnm, hm, hmc, hvraw, hvelems, hvints, hcod, hscr2, hvd, hdev⟩ := loadDevice_inv h
    rw [hscr] at hscr2
    cases hscr2
    rw [hdev]
  · intro targets date data h
    exact loadDevice_no_screen h

/-- C5 counterexample: the screen value ". in" holds no digits at all, so
under the claim there is no matching numeric token and the value must be
kept verbatim; the code extracts the dot-only run "." (the regex class
admits dots without any digit). -/
theorem c5_screen_counterexample :
    normalizeScreen (Yaml.str ". in") = Yaml.str "."
      ∧ Yaml.str "." ≠ Yaml.str ". in" := by
  exact ⟨by decide, by decide⟩

/-- C5 witness: the canonical-extraction clause applied to the token 5.5
followed by " in display". -/
theorem c5_screen_witness :
    normalizeScreen (Yaml.str (String.mk (['5', '.', '5']
        ++ (' ' :: 'i' :: 'n' :: " display".data))))
      = Yaml.str (String.mk ['5', '.', '5']) :=
  c5_screen_amended.2.1 ['5', '.', '5'] " display".data (by decide) (by decide)

/-- C6 (amended): the top-10 README summary ranks ALL successfully parsed
records — filtering plays no part, so a zero-maintainer record is still
eligible — takes the first ten in ranking order, and formats each as
`* [[<wiki_link>|<short_name>]] (<maintainer_count> maintainers)` (the
name appears only inside the link markup; the parenthesized group holds
just the count, with no name and no comma). -/
theorem c6_top10_amended :
    (∀ devices : List Device,
        readmeDeviceLines devices = ((pySorted devices).take 10).map fmtDeviceLine)
  ∧ (∀ d : Device, fmtDeviceLine d
        = "* [[" ++ d.wiki_link ++ "|" ++ d.short_name ++ "]] ("
            ++ toString d.maintainer_count ++ " maintainers)")
  ∧ (∀ (devices : List Device) (d : Device), d ∈ devices → d ∈ pySorted devices)
  ∧ (∀ (devices : List Device) (d : Device), d ∈ devices → devices.length ≤ 10 →
        fmtDeviceLine d ∈ readmeDeviceLines devices)
  ∧ (∀ (today : String) (dates : List String) (devices : List Device) (newest : String),
        maxCommitDate dates = some newest →
        generateReadmeTop10 today dates devices
          = some (readmeDeviceLines devices
              ++ ["", "Last LineageOS wiki page update: " ++ newest,
                  "Generated: " ++ today])) := by
  refine ⟨fun _ => rfl, fun _ => rfl, ?_, ?_, ?_⟩
  · intro devices d hd
    exact mem_pySorted.mpr hd
  · intro devices d hd hlen
    unfold readmeDeviceLines
    rw [List.take_of_length_le (by rw [(pySorted_perm devices).length_eq]; exact hlen)]
    exact List.mem_map_of_mem fmtDeviceLine (mem_pySorted.mpr hd)
  · intro today dates devices newest h
    unfold generateReadmeTop10
    rw [h]
    rfl

/-- C6 counterexample: for the sample record (3 maintainers) the whole
summary line is produced; it contains the parenthesized group
"(3 maintainers)" but not the substring ", 3 maintainers", so the
claimed line shape `* <link-markup> (<name>, <maintainer_count>
maintainers)` — which puts the name and a comma inside the parentheses —
does not match the code output. -/
theorem c6_top10_counterexample :
    readmeDeviceLines [devZeta] = [fmtDeviceLine devZeta]
      ∧ strContains (fmtDeviceLine devZeta) "(3 maintainers)" = true
      ∧ strContains (fmtDeviceLine devZeta) ", 3 maintainers" = false := by
  refine ⟨?_, by decide, by decide⟩
  unfold readmeDeviceLines
  rw [pySorted_singleton]
  rfl

/-- C6 witness: a record in a list of at most ten — the zero-maintainer
sample, which every filter would skip — still contributes its line to
the summary. -/
theorem c6_top10_witness : fmtDeviceLine devLg ∈ readmeDeviceLines [devZeta, devLg] :=
  c6_top10_amended.2.2.2.1 [devZeta, devLg] devLg (by decide) (by decide)

/-- C7 (amended): README patching replaces the lines strictly between the
headline line and the next line starting with "==" (any heading of level
two or deeper, not only a same-level delimiter) with the supplied block
flanked by blank lines; the lines before the headline, the headline, and
the lines from that delimiter on are preserved only up to stripping of
trailing whitespace — not byte for byte — because every line of the
document is rstripped as it is copied (and the result is rejoined with
single newlines).  Stated for a document whose headline occurs once
before the section and not again after it. -/
theorem c7_patch_amended (pre mid post block : List String) (delim : String)
    (hpre : ∀ l ∈ pre, pyRstrip l ≠ readmeTop10Headline)
    (hmid : ∀ l ∈ mid, strStartsWith (pyRstrip l) "==" = false)
    (hdelim : strStartsWith (pyRstrip delim) "==" = true)
    (hpost : ∀ l ∈ post, pyRstrip l ≠ readmeTop10Headline) :
    patchReadme (pre ++ readmeTop10Headline :: (mid ++ delim :: post)) block
      = some (pre.map pyRstrip
          ++ readmeTop10Headline :: "" ::
            (block ++ "" :: pyRstrip delim :: post.map pyRstrip)) := by
  have hh : pyRstrip readmeTop10Headline = readmeTop10Headline := by decide
  have h3 : patchGo block (delim :: post) true true
      = (pyRstrip delim :: post.map pyRstrip, true) := by
    simp only [patchGo, hdelim, if_true]
    rw [patchGo_post block post hpost]
  have h2 : patchGo block (mid ++ delim :: post) true true
      = (pyRstrip delim :: post.map pyRstrip, true) := by
    rw [patchGo_mid block mid _ hmid, h3]
  have h1 : patchGo block (readmeTop10Headline :: (mid ++ delim :: post)) false false
      = (readmeTop10Headline :: "" ::
          (block ++ "" :: pyRstrip delim :: post.map pyRstrip), true) := by
    simp only [patchGo, hh, if_pos rfl, Bool.false_eq_true, if_false]
    rw [h2]
    simp
  unfold patchReadme
  rw [patchGo_pre block pre _ hpre, h1]
  simp

/-- C7 counterexample: a document whose first line carries a trailing
space.  The claim demands that every line before the marker be preserved
byte for byte; the written result contains the rstripped line "a"
instead of "a ". -/
theorem c7_patch_counterexample :
    patchReadme ["a ", readmeTop10Headline, "old", "== x"] ["B"]
        = some ["a", readmeTop10Headline, "", "B", "", "== x"]
      ∧ patchReadme ["a ", readmeTop10Headline, "old", "== x"] ["B"]
        ≠ some ["a ", readmeTop10Headline, "", "B", "", "== x"] := by
  exact ⟨by decide, by decide⟩

/-- C7 witness: the amended patching contract on a concrete document. -/
theorem c7_patch_witness :
    patchReadme (["intro"] ++ readmeTop10Headline :: (["old line"] ++ "== next" :: ["tail"]))
        ["B1", "B2"]
      = some (["intro"].map pyRstrip
          ++ readmeTop10Headline :: "" ::
            (["B1", "B2"] ++ "" :: pyRstrip "== next" :: ["tail"].map pyRstrip)) :=
  c7_patch_amended ["intro"] ["old line"] ["tail"] ["B1", "B2"] "== next"
    (by decide) (by decide) (by decide) (by decide)

/-- C8 (amended): the README patch fails (AssertionError, so nothing is
written) exactly when no line of the document rstrips to the headline —
a missing marker is fatal, but a duplicated marker is NOT detected and
does not fail (the scan happily replaces after each occurrence it meets
outside a section); on failure no output document is produced at all
(the whole result is built in memory first), which is the atomicity the
claim describes. -/
theorem c8_marker_failure (docLines block : List String) :
    patchReadme docLines block = none ↔
      (∀ l ∈ docLines, pyRstrip l ≠ readmeTop10Headline) := by
  show (if (patchGo block docLines false false).2 = true
      then some (patchGo block docLines false false).1 else none) = none ↔ _
  rw [patchGo_found block docLines false false (by simp)]
  simp only [Bool.false_or]
  rcases hany : docLines.any (fun l => decide (pyRstrip l = readmeTop10Headline)) with _ | _
  · simp only [Bool.false_eq_true, if_false]
    simp only [List.any_eq_false, decide_eq_true_eq] at hany
    simpa using hany
  · simp only [if_true]
    simp only [List.any_eq_true, decide_eq_true_eq] at hany
    obtain ⟨l, hl, he⟩ := hany
    constructor
    · intro h
      exact absurd h (by simp)
    · intro hall
      exact absurd he (hall l hl)

/-- C8 counterexample: a document containing the headline twice.  The
claim says the patch must fail when the marker is duplicated; the code
does not fail — it returns a written document, and even splices the
replacement block after each of the two headline occurrences. -/
theorem c8_duplicate_marker_counterexample :
    patchReadme [readmeTop10Headline, "x", "== end", readmeTop10Headline, "y", "== end2"] ["B"]
      = some [readmeTop10Headline, "", "B", "", "== end",
              readmeTop10Headline, "", "B", "", "== end2"] := by decide

/-- C8 witness: a document without the marker fails with no output. -/
theorem c8_marker_failure_witness : patchReadme ["no marker here", "== next"] ["B"] = none :=
  (c8_marker_failure ["no marker here", "== next"] ["B"]).mpr (by decide)

/-- C9 (amended): for every record that loads, maintainer_count is the
Python len of the source maintainers value (so the number of entries of a
maintainers sequence, 0 for the empty sequence) and is a natural number;
but a record whose mapping has NO maintainers key does not load with
count 0 — the load fails (KeyError). -/
theorem c9_maintainer_count_amended :
    (∀ (targets : List Int) (date : String) (data : Yaml) (dev : Device),
        loadDevice targets date data = some dev →
        ∃ m n, yget data "maintainers" = some m ∧ pyLen m = some n ∧
          dev.maintainer_count = n)
  ∧ (∀ xs : List Yaml, pyLen (Yaml.seq xs) = some xs.length)
  ∧ (∀ (targets : List Int) (date : String) (data : Yaml) (dev : Device),
        loadDevice targets date data = some dev →
        yget data "maintainers" = some (Yaml.seq []) → dev.maintainer_count = 0)
  ∧ (∀ (targets : List Int) (date : String) (data : Yaml),
        yget data "maintainers" = none → loadDevice targets date data = none) := by
  refine ⟨?_, pyLen_seq, ?_, ?_⟩
  · intro targets date data dev h
    obtain ⟨vs, nm, m, mc, vraw, velems, vints, cod, scr, vd,
      hvs, hnm, hm, hmc, hvraw, hvelems, hvints, hcod, hscr, hvd, hdev⟩ := loadDevice_inv h
    exact ⟨m, mc, hm, hmc, by rw [hdev]⟩
  · intro targets date data dev h hme
    obtain ⟨vs, nm, m, mc, vraw, velems, vints, cod, scr, vd,
      hvs, hnm, hm, hmc, hvraw, hvelems, hvints, hcod, hscr, hvd, hdev⟩ := loadDevice_inv h
    rw [hme] at hm
    cases hm
    rw [show pyLen (Yaml.seq []) = some 0 from rfl] at hmc
    cases hmc
    rw [hdev]
  · intro targets date data h
    exact loadDevice_no_maintainers h

/-- C9 counterexample: descriptor data complete except for the
maintainers key.  The claim says such a record parses with
maintainer_count 0; the code instead raises KeyError, so the record
fails to load at all. -/
theorem c9_absent_maintainers_counterexample :
    loadDevice [16, 17] "2020-01-01" zetaDataNoMaintainers = none := by decide

/-- C9 witness: the count clause applied to the sample record with three
maintainers. -/
theorem c9_maintainer_count_witness :
    ∃ m n, yget zetaData "maintainers" = some m ∧ pyLen m = some n ∧
      devZeta.maintainer_count = n :=
  c9_maintainer_count_amended.1 [16, 17] "2020-01-01" zetaData devZeta (by decide)

/-- C10: short_name is the capitalization — first character of the
combined string uppercased, every later character lowercased, Python
str.capitalize — of "vendor_short name", used for display and ranking
tie-break; the CSV vendor column applies the same capitalization to
vendor_short alone; an all-caps vendor with an all-caps device name is
folded to e.g. "Lg g3". -/
theorem c10_short_name_capitalize :
    (∀ (targets : List Int) (date : String) (data : Yaml) (dev : Device) (vs nm : Yaml),
        loadDevice targets date data = some dev →
        yget data "vendor_short" = some vs → yget data "name" = some nm →
        dev.short_name = pyCapitalize (pyStr vs ++ " " ++ pyStr nm))
  ∧ (∀ (dev : Device) (row : Row) (s : String), makeRow dev = some row →
        dev.vendor_short = Yaml.str s → row.vendor = pyCapitalize s)
  ∧ (∀ (c : Char) (cs : List Char),
        pyCapitalize (String.mk (c :: cs)) = String.mk (c.toUpper :: cs.map Char.toLower))
  ∧ pyCapitalize "LG G3" = "Lg g3"
  ∧ devLg.short_name = "Lg g3" := by
  refine ⟨?_, ?_, fun _ _ => rfl, by decide, by decide⟩
  · intro targets date data dev vs nm h hvs hnm
    obtain ⟨vs2, nm2, m, mc, vraw, velems, vints, cod, scr, vd,
      hvs2, hnm2, hm, hmc, hvraw, hvelems, hvints, hcod, hscr, hvd, hdev⟩ := loadDevice_inv h
    rw [hvs] at hvs2
    rw [hnm] at hnm2
    cases hvs2
    cases hnm2
    rw [hdev]
  · intro dev row s h hvs
    unfold makeRow at h
    rw [hvs] at h
    simp only [Option.bind_eq_some] at h
    obtain ⟨vendor, hvendor, release, hrel, soc, hsoc, ram, hram, storage, hsto,
      models, hmod, hrow⟩ := h
    rw [Option.some_inj] at hvendor hrow
    rw [← hrow]
    exact hvendor.symm

/-- C10 witness: the two capitalization clauses applied to the sample
data — the record short name and the CSV vendor cell. -/
theorem c10_short_name_witness :
    devZeta.short_name = pyCapitalize (pyStr (Yaml.str "acme") ++ " " ++ pyStr (Yaml.str "Zeta")) :=
  c10_short_name_capitalize.1 [16, 17] "2020-01-01" zetaData devZeta
    (Yaml.str "acme") (Yaml.str "Zeta") (by decide) (by decide) (by decide)
